import Mathlib

/-!
Shallow embedding of the x-auto-dm campaign engine:
`x_dm_sender_improved.py` (class `XDMSender`) and
`maintenance_tools.py` (class `MaintenanceTools`).

Timestamps are modelled as seconds since an arbitrary epoch.  A value
written into the history log's `date` column is modelled by `DateStr`:
the minute part of the timestamp plus an optional seconds field, which
records whether the rendered string carried a `:SS` component.
Python's `datetime.strptime` raises a `ValueError` when the string and
the format string disagree on the presence of a seconds component
("unconverted data remains"); the two parsers below reproduce that by
returning `none` in exactly those cases.

The UI-automation backend (Selenium) is modelled by its observable
answers: the page height after each scroll, the hrefs visible on a
page, and the per-target outcome of `send_dm_to_user`.  The `random`
draws of the pacing policy are inputs.  File/webhook I/O is modelled by
the data written (history rows) and the notifications pushed.
-/

structure DateStr where
  mins : Nat
  secs : Option Nat
deriving DecidableEq

/-- `datetime.strptime(s, "%Y-%m-%d %H:%M")`: succeeds only when the
string has no seconds component; a trailing `:SS` makes Python raise
`ValueError` (skipped by the caller's `except` clause), modelled as
`none`. -/
def parseHM (d : DateStr) : Option Nat :=
  match d.secs with
  | none => some (d.mins * 60)
  | some _ => none

/-- `datetime.strptime(s, "%Y-%m-%d %H:%M:%S")`: succeeds only when the
string carries a seconds component. -/
def parseHMS (d : DateStr) : Option Nat :=
  match d.secs with
  | none => none
  | some s => some (d.mins * 60 + s)

/-- `datetime.now().strftime("%Y-%m-%d %H:%M:%S")` rendered at time `t`
(seconds since the epoch): full precision, seconds included. -/
def formatHMS (t : Nat) : DateStr := ⟨t / 60, some (t % 60)⟩

/-- The calendar day of a logged date; `row["date"].startswith(today)`
on the `YYYY-MM-DD` prefix is day equality in this model. -/
def dayOf (d : DateStr) : Nat := d.mins / 1440

/-- One row of the append-only history log
(`date, username, url, status, error, message_sent`), as created by
`XDMSender.setup_files` / appended by `XDMSender.log_sending_result`. -/
structure Row where
  date : DateStr
  username : String
  url : String
  status : String
  error : String
  message_sent : String
deriving DecidableEq

/-- `XDMSender.log_sending_result`: appends one row, stamping it with
`datetime.now().strftime("%Y-%m-%d %H:%M:%S")` (seconds included) and
truncating the message excerpt to 50 characters plus an ellipsis. -/
def log_sending_result (t : Nat) (username url status error message : String) : Row :=
  { date := formatHMS t
    username := username
    url := url
    status := status
    error := error
    message_sent := if 50 < message.length then message.take 50 ++ "..." else message }

/-- `XDMSender.load_sent_history`: scans the history log, keeps the
`username` of every row whose date parses under `%Y-%m-%d %H:%M`, lies
strictly after `now - sent_history_reset_days` days, and whose status
is `Success`; rows raising `ValueError`/`KeyError` are skipped by the
inner `except` clause. -/
def load_sent_history (now resetDays : Nat) (rows : List Row) : List String :=
  rows.filterMap (fun r =>
    match parseHM r.date with
    | some t =>
        if now - resetDays * 86400 < t && r.status == "Success" then some r.username else none
    | none => none)

/-- Python `str.startswith`, as structural recursion over the
character lists of the two strings. -/
def is_prefix_chars : List Char → List Char → Bool
  | [], _ => true
  | _ :: _, [] => false
  | a :: as, b :: bs => a == b && is_prefix_chars as bs

/-- Python `p.startswith(t)`. -/
def py_startswith (s t : String) : Bool := is_prefix_chars t.data s.data

/-- Python `str.strip()`: drop whitespace from both ends. -/
def py_strip (s : String) : String :=
  ⟨((s.data.dropWhile Char.isWhitespace).reverse.dropWhile Char.isWhitespace).reverse⟩

/-- The set comprehension inside `XDMSender.load_blacklist`:
`url.strip() for url in urls if url and (url.startswith("https://twitter.com")
or url.startswith("https://x.com"))`.  The prefix test runs on the raw
provider entry; only the kept value is stripped. -/
def blacklist_keep (urls : List String) : List String :=
  urls.filterMap (fun url =>
    if url != "" && (py_startswith url "https://twitter.com" || py_startswith url "https://x.com")
    then some (py_strip url) else none)

/-- `XDMSender.load_blacklist`: the Google Sheets fetch is the external
blacklist provider, its result (column values, or a raised exception)
is the `Except` argument.  On a provider exception the `except` clause
logs a warning and sets the blacklist to the empty set.  Result is
`(blacklist, warned)`. -/
def load_blacklist (fetched : Except String (List String)) : List String × Bool :=
  match fetched with
  | Except.ok urls => (blacklist_keep urls, false)
  | Except.error _ => ([], true)

/-- The keep-rule as claim C10 words it: strip surrounding whitespace
first, then test the `https://twitter.com` / `https://x.com` prefixes.
Kept for comparison against `blacklist_keep`, the rule the code
implements. -/
def blacklist_keep_spec (urls : List String) : List String :=
  urls.filterMap (fun url =>
    if py_startswith (py_strip url) "https://twitter.com" ||
        py_startswith (py_strip url) "https://x.com"
    then some (py_strip url) else none)

/-- The fatigue-scaling factor of `XDMSender.wait_between_actions`:
`if action_count > 100: base_wait *= 1.5 elif action_count > 300:
base_wait *= 2.0`.  The `elif` order is kept exactly as in the
source. -/
def wait_multiplier (action_count : Nat) : ℚ :=
  if 100 < action_count then 3/2
  else if 300 < action_count then 2
  else 1

/-- `XDMSender.wait_between_actions`: scaled base delay, plus the
long-break addition when the 10% event fires.  The `random` draws are
inputs: `base` stands for `random.uniform(min_wait, max_wait)`,
`long_break` for the event `random.random() < 0.1`, and `extra` for
`random.uniform(60, 180)`. -/
def wait_between_actions (action_count : Nat) (base : ℚ) (long_break : Bool) (extra : ℚ) : ℚ :=
  let b := base * wait_multiplier action_count
  if long_break then b + extra else b

/-- Occurrence of the character list `t` anywhere in `s`. -/
def contains_chars (t : List Char) : List Char → Bool
  | [] => is_prefix_chars t []
  | a :: rest => is_prefix_chars t (a :: rest) || contains_chars t rest

/-- Python substring test `t in s`. -/
def contains_sub (s t : String) : Bool := contains_chars t.data s.data

/-- Python `str.split(c)` for a one-character separator: no collapsing
of adjacent separators, and the empty string yields `[""]`. -/
def split_char (c : Char) : List Char → List (List Char)
  | [] => [[]]
  | a :: as =>
    if a == c then [] :: split_char c as
    else
      match split_char c as with
      | [] => [[a]]
      | h :: t => (a :: h) :: t

/-- The href normalisation of `XDMSender.extract_usernames_from_page`:
skip status/search links, require a twitter.com/x.com href, take the
last path segment (`href.split("/")[-1]`) before any query string
(`.split("?")[0]`), and reject empty or `i/` segments.  Produces the
`(username, href)` pair added to the set. -/
def username_from_href (href : String) : Option (String × String) :=
  if contains_sub href "/status/" || contains_sub href "/search" then none
  else if contains_sub href "twitter.com" || contains_sub href "x.com" then
    let username_part := (split_char '?' ((split_char '/' href.data).getLastD [])).headD []
    if username_part != [] && !(is_prefix_chars ['i', '/'] username_part) then
      some (⟨'@' :: username_part⟩, href)
    else none
  else none

/-- `XDMSender.extract_usernames_from_page` over the hrefs the backend
reports on the current page (one selector pass). -/
def extract_usernames_from_page (hrefs : List String) : List (String × String) :=
  hrefs.filterMap username_from_href

/-- The control skeleton of `XDMSender.scroll_and_collect`: `H k` is
the page height the backend reports after `k` scroll actions, `stable`
the consecutive no-change counter, `i` the scrolls done so far, `fuel`
the remaining loop range.  Returns how many loop iterations (reveal
actions) run; the candidate accumulation (`all_usernames.update`) and
the sleeps have no effect on control flow and are omitted from this
projection. -/
def scroll_iters (H : Nat → Nat) : Nat → Nat → Nat → Nat
  | _, _, 0 => 0
  | stable, i, fuel + 1 =>
    if H (i + 1) = H i then
      if 2 ≤ stable + 1 then 1
      else 1 + scroll_iters H (stable + 1) (i + 1) fuel
    else 1 + scroll_iters H 0 (i + 1) fuel

/-- Number of reveal actions executed by `XDMSender.scroll_and_collect`
with `max_scroll_per_page = max_scrolls`, starting from a fresh page
(`stable_count = 0`, no scrolls done yet). -/
def scroll_and_collect_iters (H : Nat → Nat) (max_scrolls : Nat) : Nat :=
  scroll_iters H 0 0 max_scrolls

/-- The candidate filter applied in `XDMSender.search_users_by_keywords`
and `XDMSender.collect_following_users`: keep `(username, url)` iff
`username not in self.sent_users and url not in self.blacklist_urls`. -/
def filter_targets (sent_users blacklist : List String)
    (cands : List (String × String)) : List (String × String) :=
  cands.filter (fun t => !(sent_users.contains t.1) && !(blacklist.contains t.2))

/-- Candidate collection in `XDMSender.run`: keyword-phase candidates
filtered; if still below `max_messages_per_day`, the expansion
(following) candidates are filtered with the same exclusion sets and
unioned in (`target_users.update`). -/
def collect_targets (cap : Nat) (sent_users blacklist : List String)
    (keyword_users expansion_users : List (String × String)) : List (String × String) :=
  let t1 := filter_targets sent_users blacklist keyword_users
  if t1.length < cap then
    t1 ++ (filter_targets sent_users blacklist expansion_users).filter (fun u => !(t1.contains u))
  else t1

/-- The send loop of `XDMSender.run` over `list(target_users)[:cap]`:
per iteration it breaks when `sent_count` has reached the cap, breaks
when the current hour is blocked, calls the backend
(`send_dm_to_user`, modelled by `send : username → url →
(success, reason)`), logs a row regardless of outcome, and on success
increments `sent_count` and adds the username to `sent_users` — which
the loop never reads.  `hourAt i` / `stampAt i` are the wall clock at
the `i`-th check; each element of the result pairs the logged row with
`sent_count` at the end of that iteration. -/
def send_loop (cap : Nat) (blocked_hours : List Nat) (hourAt stampAt : Nat → Nat)
    (send : String → String → Bool × String) (message : String) :
    List (String × String) → List String → Nat → Nat → List (Row × Nat)
  | [], _, _, _ => []
  | (username, url) :: rest, sent_users, sent_count, i =>
    if cap ≤ sent_count then []
    else if (blocked_hours.contains (hourAt i)) = true then []
    else
      let res := send username url
      let status := if res.1 then "Success" else "Failed"
      let row := log_sending_result (stampAt i) username url status res.2 message
      let sent_count2 := if res.1 then sent_count + 1 else sent_count
      let sent_users2 := if res.1 then username :: sent_users else sent_users
      (row, sent_count2) ::
        send_loop cap blocked_hours hourAt stampAt send message rest sent_users2 sent_count2 (i + 1)

/-- The history rows written by one call of `XDMSender.run`: the
blocked-hours gate at start (check 0), candidate collection and
filtering, truncation to the first `cap` candidates, then the send
loop (checks 1, 2, ...).  Backend-session setup is assumed to
succeed. -/
def run_rows (cap : Nat) (blocked_hours : List Nat) (hourAt stampAt : Nat → Nat)
    (sent_users blacklist : List String)
    (keyword_users expansion_users : List (String × String))
    (send : String → String → Bool × String) (message : String) : List Row :=
  if (blocked_hours.contains (hourAt 0)) = true then []
  else
    let targets := collect_targets cap sent_users blacklist keyword_users expansion_users
    (send_loop cap blocked_hours hourAt stampAt send message (targets.take cap)
      sent_users 0 1).map (fun p => p.1)

/-- Notifications pushed through `XDMSender.notify_slack`. -/
inductive Notif where
  /-- The daily report with its success / fail counts for today. -/
  | daily (success fail : Nat)
  /-- The `except` branch of `send_daily_report`: with zero rows for
  today the success-rate expression divides by zero, the handler
  notifies `日次レポート生成エラー` — an error notification. -/
  | daily_error
  /-- The monthly report (its aggregation guards its division and its
  `except` branch only logs, never notifies). -/
  | monthly
deriving DecidableEq

/-- `XDMSender.send_daily_report`: counts today's Success rows and
today's other rows, then formats a report whose success-rate term is
`success/(success+fail)*100` — unguarded, so with zero rows for today
Python raises `ZeroDivisionError` and the `except` clause sends the
error notification instead of the report. -/
def send_daily_report (nowDay : Nat) (log : List Row) : Notif :=
  let s := log.countP (fun r => dayOf r.date == nowDay && r.status == "Success")
  let f := log.countP (fun r => dayOf r.date == nowDay && !(r.status == "Success"))
  if s + f = 0 then Notif.daily_error else Notif.daily s f

/-- `XDMSender.send_monthly_report`: returns without notifying unless
today is `monthly_report_day` (the calendar test is the Boolean
input); when due, its aggregation is division-guarded and it pushes the
monthly report. -/
def send_monthly_report (monthlyDue : Bool) : Option Notif :=
  if monthlyDue then some Notif.monthly else none

/-- Observable effects of one `XDMSender.run` call: how many discovery
(search) calls were issued, the history rows appended, and the
notifications pushed.  The `finally` block always runs the daily and
monthly reports over the log as left by the run. -/
structure RunEffects where
  discovery_calls : Nat
  new_rows : List Row
  notifs : List Notif
deriving DecidableEq

/-- `XDMSender.run`, end to end: the blocked-hours gate returns before
any discovery call; otherwise one keyword discovery pass runs and the
send loop executes; in both cases the `finally` block reports over
`old_log ++ new rows`. -/
def run_effects (cap : Nat) (blocked_hours : List Nat) (hourAt stampAt : Nat → Nat)
    (nowDay : Nat) (monthlyDue : Bool) (sent_users blacklist : List String)
    (keyword_users expansion_users : List (String × String))
    (send : String → String → Bool × String) (message : String)
    (old_log : List Row) : RunEffects :=
  let rows := run_rows cap blocked_hours hourAt stampAt sent_users blacklist
      keyword_users expansion_users send message
  { discovery_calls := if (blocked_hours.contains (hourAt 0)) = true then 0 else 1
    new_rows := rows
    notifs := send_daily_report nowDay (old_log ++ rows) ::
      (send_monthly_report monthlyDue).toList }

/-- Whether a row is inside the analysis window of
`MaintenanceTools.analyze_sending_statistics`: its date parses under
`%Y-%m-%d %H:%M:%S` and `send_date >= now - days` (inclusive). -/
def in_window (now days : Nat) (r : Row) : Bool :=
  match parseHMS r.date with
  | some t => decide (now - days * 86400 ≤ t)
  | none => false

/-- The counting loop of `MaintenanceTools.analyze_sending_statistics`:
for each row whose date parses and lies in the window, increment
`total_attempts` and either `successful_sends` (status `Success`) or
`failed_sends` (any other status); malformed rows are skipped.
Result: `(total, success, failed)`. -/
def analyze_counts (now days : Nat) : List Row → Nat × Nat × Nat
  | [] => (0, 0, 0)
  | r :: rest =>
    let acc := analyze_counts now days rest
    match parseHMS r.date with
    | none => acc
    | some t =>
      if now - days * 86400 ≤ t then
        if r.status = "Success" then (acc.1 + 1, acc.2.1 + 1, acc.2.2)
        else (acc.1 + 1, acc.2.1, acc.2.2 + 1)
      else acc

/-- The statistics record returned by
`MaintenanceTools.analyze_sending_statistics` (the fields the claims
are about). -/
structure Stats where
  total_attempts : Nat
  successful_sends : Nat
  failed_sends : Nat
  success_rate : ℚ
deriving DecidableEq

/-- `MaintenanceTools.analyze_sending_statistics`: counts over the
window, then `success_rate = successful/total * 100` computed only
when `total_attempts > 0` (the division is guarded), else 0.0. -/
def analyze_sending_statistics (now days : Nat) (rows : List Row) : Stats :=
  let c := analyze_counts now days rows
  { total_attempts := c.1
    successful_sends := c.2.1
    failed_sends := c.2.2
    success_rate := if 0 < c.1 then (c.2.1 : ℚ) / (c.1 : ℚ) * 100 else 0 }

/-!  Concrete scenarios used by the claim theorems and witnesses.  -/

/-- C2 scenario: fresh history and blacklist, the same handle
discovered under a twitter.com href and an x.com href, an
always-succeeding backend, daily cap 2, hour 12 never blocked. -/
def scn2_rows : List Row :=
  run_rows 2 [] (fun _ => 12) (fun _ => 5000000) [] []
    (extract_usernames_from_page ["https://twitter.com/alice", "https://x.com/alice"]) []
    (fun _ _ => (true, "Success")) "hello"

/-- C3 scenario backend: Success for every candidate except `@u3`,
which fails after its internal retries. -/
def scn3_send (username : String) (_ : String) : Bool × String :=
  if username == "@u3" then (false, "Message button not found") else (true, "Success")

/-- C3 scenario: daily cap 3, five filtered candidates, backend
`scn3_send`, hour 12 never blocked. -/
def scn3_rows : List Row :=
  run_rows 3 [] (fun _ => 12) (fun _ => 5000000) [] []
    [("@u1", "https://x.com/u1"), ("@u2", "https://x.com/u2"), ("@u3", "https://x.com/u3"),
      ("@u4", "https://x.com/u4"), ("@u5", "https://x.com/u5")] []
    scn3_send "hello"

/-- C5 scenario: blocked hours 0..6, current hour 2 at every check, a
history log with no rows for the current day (day 57), monthly report
not due. -/
def scn5 : RunEffects :=
  run_effects 5 [0, 1, 2, 3, 4, 5, 6] (fun _ => 2) (fun _ => 5000000) 57 false [] []
    [("@u1", "https://x.com/u1")] [] (fun _ _ => (true, "Success")) "hello" []

/-- A reveal action producing no growth: the `k`-th scroll left the
page height unchanged (`new_height == current_height` in
`scroll_and_collect`). -/
def no_growth (H : Nat → Nat) (k : Nat) : Prop := H (k + 1) = H k

/-- C6 witness backend: heights 0, 1, 2, 3, 3, 3, ... — growth for
three scrolls, then stable. -/
def scnH (k : Nat) : Nat := min k 3

/-- C8 witness history (`now = 864000`, window 7 days): one Success and
one Failed row inside the window, one Success row before the window,
and one minute-precision row that fails to parse. -/
def c8_rows : List Row :=
  [log_sending_result 863000 "@a" "https://x.com/a" "Success" "Success" "hi",
    log_sending_result 862000 "@b" "https://x.com/b" "Failed" "Timeout at wait step" "hi",
    log_sending_result 200000 "@c" "https://x.com/c" "Success" "Success" "hi",
    { date := ⟨14383, none⟩, username := "@d", url := "https://x.com/d",
      status := "Failed", error := "x", message_sent := "hi" }]

/-!  Theorems.  -/

/-- C1: the spec's rolling-window boundary claim says a Success row
timestamped strictly inside the window (here `now - 90 days + 1 s` with
`now = 10000000`) is excluded from new candidates.  Evaluating the code
at that input: the row is written by `log_sending_result` in
`%Y-%m-%d %H:%M:%S` format, `load_sent_history` parses with
`%Y-%m-%d %H:%M`, the parse fails, the row is skipped, and `@alice` is
not excluded — the code contradicts the claim. -/
theorem c1_history_row_not_excluded_inside_window :
    10000000 - 90 * 86400 < 2224001 ∧
    "@alice" ∉ load_sent_history 10000000 90
      [log_sending_result 2224001 "@alice" "https://x.com/alice" "Success" "Success" "hello"] := by
  decide

/-- C7: the claim says the base delay is multiplied by 2.0 once the
actions counter exceeds 300.  In the code the `elif action_count > 300`
branch is shadowed by `if action_count > 100`, so every count above 300
gets factor 1.5, never 2.0; the long-break addition still applies on
top. -/
theorem c7_wait_scaling_above_300 (action_count : Nat) (base extra : ℚ)
    (h : 300 < action_count) :
    wait_multiplier action_count = 3/2 ∧
    wait_multiplier action_count ≠ 2 ∧
    wait_between_actions action_count base true extra = base * (3/2) + extra := by
  have h1 : 100 < action_count := by omega
  refine ⟨by simp [wait_multiplier, h1], ?_, by simp [wait_between_actions, wait_multiplier, h1]⟩
  simp only [wait_multiplier, if_pos h1]
  norm_num

/-- Witness for C7 at the concrete count 301. -/
theorem c7_wait_scaling_above_300_witness :
    (300 : Nat) < 301 ∧
    (wait_multiplier 301 = 3/2 ∧ wait_multiplier 301 ≠ 2 ∧
      wait_between_actions 301 10 true 60 = 10 * (3/2) + 60) :=
  ⟨by norm_num, c7_wait_scaling_above_300 301 10 60 (by norm_num)⟩

/-- C2: the claim says no identifier gets two Success rows within one
run, even when discovered under two locator strings.  Evaluating the
run at the C2 scenario: `extract_usernames_from_page` yields
`("@alice", twitter href)` and `("@alice", x href)` as distinct pairs,
the send loop checks neither the in-run `sent_users` additions nor the
identifier again, both sends succeed, and the run writes two Success
rows for `@alice` — the code contradicts the claim. -/
theorem c2_duplicate_success_rows_same_identifier :
    scn2_rows.countP (fun r => r.username == "@alice" && r.status == "Success") = 2 := by
  decide

/-- C3 counterexample: with cap 3 and five filtered candidates
(backend: Success for 1, 2, 4, 5 and Failed for 3) the claim predicts
three Success rows, with candidate 4 attempted.  The code slices the
candidate list to `[:max_messages_per_day]` before sending, so only
candidates 1–3 are ever attempted: two Success rows result, and no row
mentions `@u4`. -/
theorem c3_cap_scenario_counterexample :
    scn3_rows.countP (fun r => r.status == "Success") = 2 ∧
    ¬ scn3_rows.countP (fun r => r.status == "Success") = 3 ∧
    scn3_rows.all (fun r => r.username != "@u4") = true := by
  decide

/-- C3 amended: the run truncates the candidate list to the first
`dailyCap` candidates before sending, so failures consume cap slots:
with cap 3 and the same backend the run writes exactly the rows
Success(`@u1`), Success(`@u2`), Failed(`@u3`), and candidates 4 and 5
are never attempted. -/
theorem c3_cap_scenario_amended :
    scn3_rows =
      [log_sending_result 5000000 "@u1" "https://x.com/u1" "Success" "Success" "hello",
        log_sending_result 5000000 "@u2" "https://x.com/u2" "Success" "Success" "hello",
        log_sending_result 5000000 "@u3" "https://x.com/u3" "Failed" "Message button not found"
          "hello"] := by
  decide

/-- C5: the claim says a run starting inside blocked hours aborts
before any discovery call, writes zero rows, and fires no error
notification.  Evaluating the run at the C5 scenario: discovery is
indeed never called and no row is written, but the `finally` block
still runs `send_daily_report`, and with zero rows for the current day
its success-rate expression divides by zero, so the `except` handler
fires the error notification — the code contradicts the last part of
the claim. -/
theorem c5_blocked_hours_error_notification :
    scn5.discovery_calls = 0 ∧ scn5.new_rows = [] ∧ scn5.notifs = [Notif.daily_error] := by
  decide

/-- C10 counterexample: the claim says an entry is kept iff it starts
with one of the prefixes after stripping.  For a provider entry with a
leading space the code drops it (the prefix test runs before the
strip), while the claim's rule keeps it. -/
theorem c10_strip_order_counterexample :
    blacklist_keep [" https://x.com/a"] = [] ∧
    blacklist_keep_spec [" https://x.com/a"] = ["https://x.com/a"] ∧
    blacklist_keep [" https://x.com/a"] ≠ blacklist_keep_spec [" https://x.com/a"] := by
  refine ⟨by decide, by decide, by decide⟩

/-- C10 amended: the refresh keeps exactly the non-empty provider
entries that already start with `https://twitter.com` or
`https://x.com` before any stripping, storing them stripped; every
other provider string — including ones that would match only after
stripping — is silently dropped, so a locator listed in any other form
is never excluded from sending. -/
theorem c10_blacklist_keep_amended (urls : List String) (u : String) :
    u ∈ blacklist_keep urls ↔
      ∃ v, v ∈ urls ∧ v ≠ "" ∧
        (py_startswith v "https://twitter.com" = true ∨ py_startswith v "https://x.com" = true) ∧
        u = py_strip v := by
  simp only [blacklist_keep, List.mem_filterMap]
  constructor
  · rintro ⟨v, hv, hsome⟩
    by_cases h :
        (v != "" && (py_startswith v "https://twitter.com" || py_startswith v "https://x.com"))
          = true
    · rw [if_pos h] at hsome
      injection hsome with h2
      have h3 : v ≠ "" ∧
          (py_startswith v "https://twitter.com" = true ∨
            py_startswith v "https://x.com" = true) := by
        simpa [Bool.and_eq_true, Bool.or_eq_true, bne_iff_ne] using h
      exact ⟨v, hv, h3.1, h3.2, h2.symm⟩
    · rw [if_neg h] at hsome
      cases hsome
  · rintro ⟨v, hv, hne, hpre, rfl⟩
    refine ⟨v, hv, ?_⟩
    have h :
        (v != "" && (py_startswith v "https://twitter.com" || py_startswith v "https://x.com"))
          = true := by
      simp only [Bool.and_eq_true, Bool.or_eq_true, bne_iff_ne]
      exact ⟨hne, hpre⟩
    rw [if_pos h]

/-- C9: when the blacklist provider raises, `load_blacklist` returns
the empty blacklist with the degraded-warning flag instead of failing
the run; filtering against that empty blacklist excludes nothing
beyond the sent history, and a run using it still sends (the scenario
run writes a Success row). -/
theorem c9_blacklist_failure_degrades (e : String) :
    load_blacklist (Except.error e) = ([], true) ∧
    (∀ sent cands t, t ∈ filter_targets sent (load_blacklist (Except.error e)).1 cands ↔
      t ∈ cands ∧ sent.contains t.1 = false) ∧
    run_rows 1 [] (fun _ => 12) (fun _ => 0) [] (load_blacklist (Except.error e)).1
        [("@bob", "https://x.com/bob")] [] (fun _ _ => (true, "Success")) "hi" =
      [log_sending_result 0 "@bob" "https://x.com/bob" "Success" "Success" "hi"] := by
  refine ⟨rfl, ?_, by rfl⟩
  intro sent cands t
  simp [filter_targets, List.mem_filter, load_blacklist]

/-- Invariant generator for the send loop: if `sent_count` enters an
iteration below or at the cap, every iteration ends with
`sent_count ≤ cap` — the loop breaks before attempting a target once
the cap is reached, and a success adds exactly one. -/
theorem send_loop_sent_count_bound (cap : Nat) (blocked_hours : List Nat)
    (hourAt stampAt : Nat → Nat) (send : String → String → Bool × String) (message : String) :
    ∀ (targets : List (String × String)) (sent_users : List String) (s i : Nat),
      s ≤ cap →
      ∀ p ∈ send_loop cap blocked_hours hourAt stampAt send message targets sent_users s i,
        p.2 ≤ cap := by
  intro targets
  induction targets with
  | nil =>
    intro su s i hs p hp
    simp [send_loop] at hp
  | cons t rest ih =>
    intro su s i hs p hp
    obtain ⟨username, url⟩ := t
    simp only [send_loop] at hp
    split at hp
    · exact absurd hp (List.not_mem_nil p)
    · split at hp
      · exact absurd hp (List.not_mem_nil p)
      · rcases List.mem_cons.mp hp with hp | hp
        · subst hp
          show (if (send username url).1 = true then s + 1 else s) ≤ cap
          split <;> omega
        · exact ih _ _ (i + 1) (by split <;> omega) p hp

/-- C4: at the end of every iteration of the send loop of
`XDMSender.run` (traced by the second component of each `send_loop`
element), `sent_count ≤ max_messages_per_day` holds: the count starts
at 0, is incremented only on a Success outcome, and the loop stops
attempting targets once it reaches the cap. -/
theorem c4_sent_count_le_cap (cap : Nat) (blocked_hours : List Nat)
    (hourAt stampAt : Nat → Nat) (send : String → String → Bool × String) (message : String)
    (targets : List (String × String)) (sent_users : List String) (i : Nat) :
    ∀ p ∈ send_loop cap blocked_hours hourAt stampAt send message targets sent_users 0 i,
      p.2 ≤ cap :=
  send_loop_sent_count_bound cap blocked_hours hourAt stampAt send message targets sent_users 0 i
    (Nat.zero_le cap)

/-- Witness for C4: a concrete one-target loop at cap 1 whose single
iteration ends with `sent_count = 1 ≤ 1`. -/
theorem c4_sent_count_le_cap_witness :
    (log_sending_result 0 "@a" "https://x.com/a" "Success" "Success" "hi", 1) ∈
      send_loop 1 [] (fun _ => 12) (fun _ => 0) (fun _ _ => (true, "Success")) "hi"
        [("@a", "https://x.com/a")] [] 0 1 ∧
    (1 : Nat) ≤ 1 :=
  ⟨by decide,
    c4_sent_count_le_cap 1 [] (fun _ => 12) (fun _ => 0) (fun _ _ => (true, "Success")) "hi"
      [("@a", "https://x.com/a")] [] 1
      (log_sending_result 0 "@a" "https://x.com/a" "Success" "Success" "hi", 1) (by decide)⟩

/-- Splitting a count by a second predicate. -/
theorem countP_and_split {α : Type} (p q : α → Bool) (l : List α) :
    l.countP p = l.countP (fun a => p a && q a) + l.countP (fun a => p a && !q a) := by
  induction l with
  | nil => simp
  | cons a l ih =>
    simp only [List.countP_cons, ih]
    cases hp : p a <;> cases hq : q a <;> simp [hp, hq] <;> omega

/-- The counting loop of `analyze_sending_statistics` computes the
window count, the in-window Success count, and the in-window
non-Success count. -/
theorem analyze_counts_eq (now days : Nat) : ∀ rows : List Row,
    analyze_counts now days rows =
      (rows.countP (in_window now days),
        rows.countP (fun r => in_window now days r && r.status == "Success"),
        rows.countP (fun r => in_window now days r && !(r.status == "Success"))) := by
  intro rows
  induction rows with
  | nil => rfl
  | cons r rest ih =>
    simp only [analyze_counts, ih, List.countP_cons]
    cases hd : parseHMS r.date with
    | none => simp [in_window, hd]
    | some t =>
      by_cases hw : now - days * 86400 ≤ t
      · by_cases hs : r.status = "Success"
        · simp [in_window, hd, hw, hs]
        · simp [in_window, hd, hw, hs]
      · simp [in_window, hd, hw]

/-- C8: over a history whose rows all carry status `Success` or
`Failed`, with `N` in-window Success rows and `M` in-window Failed
rows, `analyze_sending_statistics` returns `total_attempts = N + M`,
the two counts themselves, and
`success_rate = N / (N + M) * 100`, or 0 when `N + M = 0` — the
division is guarded. -/
theorem c8_analyze_totals_and_rate (now days : Nat) (rows : List Row)
    (h : ∀ r ∈ rows, r.status = "Success" ∨ r.status = "Failed") :
    (analyze_sending_statistics now days rows).total_attempts =
        rows.countP (fun r => in_window now days r && r.status == "Success") +
          rows.countP (fun r => in_window now days r && r.status == "Failed") ∧
    (analyze_sending_statistics now days rows).successful_sends =
        rows.countP (fun r => in_window now days r && r.status == "Success") ∧
    (analyze_sending_statistics now days rows).failed_sends =
        rows.countP (fun r => in_window now days r && r.status == "Failed") ∧
    (analyze_sending_statistics now days rows).success_rate =
      (if rows.countP (fun r => in_window now days r && r.status == "Success") +
            rows.countP (fun r => in_window now days r && r.status == "Failed") = 0 then 0
        else (rows.countP (fun r => in_window now days r && r.status == "Success") : ℚ) /
            ((rows.countP (fun r => in_window now days r && r.status == "Success") +
              rows.countP (fun r => in_window now days r && r.status == "Failed") : Nat) : ℚ) *
            100) := by
  have hM : rows.countP (fun r => in_window now days r && !(r.status == "Success")) =
      rows.countP (fun r => in_window now days r && r.status == "Failed") := by
    apply List.countP_congr
    intro r hr
    rcases h r hr with hs | hs <;> simp [hs]
  have hT := countP_and_split (in_window now days) (fun r => r.status == "Success") rows
  have hce := analyze_counts_eq now days rows
  constructor
  · simp only [analyze_sending_statistics, hce]
    rw [← hM]
    exact hT
  refine ⟨by simp only [analyze_sending_statistics, hce], ?_, ?_⟩
  · simp only [analyze_sending_statistics, hce]
    exact hM
  · simp only [analyze_sending_statistics, hce]
    rw [← hM, ← hT]
    rcases Nat.eq_zero_or_pos (rows.countP (in_window now days)) with hz | hpos
    · rw [hz]
      simp
    · rw [if_pos hpos, if_neg (by omega)]

/-- Characterisation of the `scroll_and_collect` loop from an arbitrary
intermediate state: the `stable_count = 0` component says the loop runs
within its fuel, stops early only right after two consecutive no-growth
scrolls, and never stops early before such a pair; the
`stable_count = 1` component carries the same facts relative to a
pending stall. -/
theorem scroll_iters_char (H : Nat → Nat) :
    ∀ fuel i,
      (scroll_iters H 0 i fuel ≤ fuel ∧
        (scroll_iters H 0 i fuel < fuel →
          2 ≤ scroll_iters H 0 i fuel ∧
          no_growth H (i + scroll_iters H 0 i fuel - 2) ∧
          no_growth H (i + scroll_iters H 0 i fuel - 1)) ∧
        (∀ j, j + 2 < scroll_iters H 0 i fuel →
          ¬(no_growth H (i + j) ∧ no_growth H (i + j + 1)))) ∧
      (scroll_iters H 1 i fuel ≤ fuel ∧
        (scroll_iters H 1 i fuel < fuel →
          (scroll_iters H 1 i fuel = 1 ∧ no_growth H i) ∨
          (2 ≤ scroll_iters H 1 i fuel ∧
            no_growth H (i + scroll_iters H 1 i fuel - 2) ∧
            no_growth H (i + scroll_iters H 1 i fuel - 1))) ∧
        (1 < scroll_iters H 1 i fuel → ¬ no_growth H i) ∧
        (∀ j, j + 2 < scroll_iters H 1 i fuel →
          ¬(no_growth H (i + j) ∧ no_growth H (i + j + 1)))) := by
  intro fuel
  induction fuel with
  | zero =>
    intro i
    simp [scroll_iters]
  | succ fuel ih =>
    intro i
    by_cases hg : H (i + 1) = H i
    · have e0 : scroll_iters H 0 i (fuel + 1) = 1 + scroll_iters H 1 (i + 1) fuel := by
        simp [scroll_iters, hg]
      have e1 : scroll_iters H 1 i (fuel + 1) = 1 := by
        simp [scroll_iters, hg]
      obtain ⟨h1le, h1br, h1d, h1c⟩ := (ih (i + 1)).2
      constructor
      · refine ⟨by rw [e0]; omega, ?_, ?_⟩
        · intro hlt
          rw [e0] at hlt ⊢
          have hlt2 : scroll_iters H 1 (i + 1) fuel < fuel := by omega
          rcases h1br hlt2 with ⟨heq, hst⟩ | ⟨h2, hpa, hpb⟩
          · rw [heq]
            refine ⟨by omega, ?_, ?_⟩
            · have e : i + (1 + 1) - 2 = i := by omega
              rw [e]; exact hg
            · have e : i + (1 + 1) - 1 = i + 1 := by omega
              rw [e]; exact hst
          · refine ⟨by omega, ?_, ?_⟩
            · have e : i + (1 + scroll_iters H 1 (i + 1) fuel) - 2 =
                  i + 1 + scroll_iters H 1 (i + 1) fuel - 2 := by omega
              rw [e]; exact hpa
            · have e : i + (1 + scroll_iters H 1 (i + 1) fuel) - 1 =
                  i + 1 + scroll_iters H 1 (i + 1) fuel - 1 := by omega
              rw [e]; exact hpb
        · intro j hj
          rw [e0] at hj
          cases j with
          | zero =>
            rintro ⟨-, hb⟩
            have hb2 : no_growth H (i + 1) := by
              have e : i + 0 + 1 = i + 1 := by omega
              rwa [e] at hb
            exact h1d (by omega) hb2
          | succ j =>
            rintro ⟨ha, hb⟩
            refine h1c j (by omega) ⟨?_, ?_⟩
            · have e : i + 1 + j = i + (j + 1) := by omega
              rw [e]; exact ha
            · have e : i + 1 + j + 1 = i + (j + 1) + 1 := by omega
              rw [e]; exact hb
      · refine ⟨by rw [e1]; omega, ?_, ?_, ?_⟩
        · intro hlt
          rw [e1]
          exact Or.inl ⟨rfl, hg⟩
        · intro h11
          rw [e1] at h11
          exact absurd h11 (by omega)
        · intro j hj
          rw [e1] at hj
          exact absurd hj (by omega)
    · have e0 : scroll_iters H 0 i (fuel + 1) = 1 + scroll_iters H 0 (i + 1) fuel := by
        simp [scroll_iters, hg]
      have e1 : scroll_iters H 1 i (fuel + 1) = 1 + scroll_iters H 0 (i + 1) fuel := by
        simp [scroll_iters, hg]
      obtain ⟨h0le, h0br, h0c⟩ := (ih (i + 1)).1
      constructor
      · refine ⟨by rw [e0]; omega, ?_, ?_⟩
        · intro hlt
          rw [e0] at hlt ⊢
          have hlt2 : scroll_iters H 0 (i + 1) fuel < fuel := by omega
          obtain ⟨h2, hpa, hpb⟩ := h0br hlt2
          refine ⟨by omega, ?_, ?_⟩
          · have e : i + (1 + scroll_iters H 0 (i + 1) fuel) - 2 =
                i + 1 + scroll_iters H 0 (i + 1) fuel - 2 := by omega
            rw [e]; exact hpa
          · have e : i + (1 + scroll_iters H 0 (i + 1) fuel) - 1 =
                i + 1 + scroll_iters H 0 (i + 1) fuel - 1 := by omega
            rw [e]; exact hpb
        · intro j hj
          rw [e0] at hj
          cases j with
          | zero =>
            rintro ⟨ha, -⟩
            exact hg (by simpa [no_growth] using ha)
          | succ j =>
            rintro ⟨ha, hb⟩
            refine h0c j (by omega) ⟨?_, ?_⟩
            · have e : i + 1 + j = i + (j + 1) := by omega
              rw [e]; exact ha
            · have e : i + 1 + j + 1 = i + (j + 1) + 1 := by omega
              rw [e]; exact hb
      · refine ⟨by rw [e1]; omega, ?_, ?_, ?_⟩
        · intro hlt
          rw [e1] at hlt ⊢
          have hlt2 : scroll_iters H 0 (i + 1) fuel < fuel := by omega
          obtain ⟨h2, hpa, hpb⟩ := h0br hlt2
          refine Or.inr ⟨by omega, ?_, ?_⟩
          · have e : i + (1 + scroll_iters H 0 (i + 1) fuel) - 2 =
                i + 1 + scroll_iters H 0 (i + 1) fuel - 2 := by omega
            rw [e]; exact hpa
          · have e : i + (1 + scroll_iters H 0 (i + 1) fuel) - 1 =
                i + 1 + scroll_iters H 0 (i + 1) fuel - 1 := by omega
            rw [e]; exact hpb
        · intro h11
          exact hg
        · intro j hj
          rw [e1] at hj
          cases j with
          | zero =>
            rintro ⟨ha, -⟩
            exact hg (by simpa [no_growth] using ha)
          | succ j =>
            rintro ⟨ha, hb⟩
            refine h0c j (by omega) ⟨?_, ?_⟩
            · have e : i + 1 + j = i + (j + 1) := by omega
              rw [e]; exact ha
            · have e : i + 1 + j + 1 = i + (j + 1) + 1 := by omega
              rw [e]; exact hb

/-- C6: for every discovery query, `scroll_and_collect` performs at
most `max_scrolls` reveal actions; when it stops before the maximum it
stops exactly after the second consecutive reveal action that produced
no growth (the last two scrolls were the no-growth pair); and it never
stops earlier: no two consecutive no-growth scrolls are followed by
further iterations. -/
theorem c6_scroll_termination (H : Nat → Nat) (max_scrolls : Nat) :
    scroll_and_collect_iters H max_scrolls ≤ max_scrolls ∧
    (scroll_and_collect_iters H max_scrolls < max_scrolls →
      2 ≤ scroll_and_collect_iters H max_scrolls ∧
      no_growth H (scroll_and_collect_iters H max_scrolls - 2) ∧
      no_growth H (scroll_and_collect_iters H max_scrolls - 1)) ∧
    (∀ j, j + 2 < scroll_and_collect_iters H max_scrolls →
      ¬(no_growth H j ∧ no_growth H (j + 1))) := by
  have h := (scroll_iters_char H max_scrolls 0).1
  simpa [scroll_and_collect_iters, Nat.zero_add] using h

/-- Witness for C6 with a growing-then-stable backend: the loop stops
after five reveal actions (three that grow the page, then the
no-growth pair), strictly inside the budget of ten, and it did not
stop at the start. -/
theorem c6_scroll_termination_witness :
    scroll_and_collect_iters scnH 10 < 10 ∧
    (2 ≤ scroll_and_collect_iters scnH 10 ∧
      no_growth scnH (scroll_and_collect_iters scnH 10 - 2) ∧
      no_growth scnH (scroll_and_collect_iters scnH 10 - 1)) ∧
    ¬(no_growth scnH 0 ∧ no_growth scnH (0 + 1)) :=
  ⟨by decide, (c6_scroll_termination scnH 10).2.1 (by decide),
    (c6_scroll_termination scnH 10).2.2 0 (by decide)⟩

/-- Witness for C8 on a concrete history: one Success and one Failed
row inside the window, one Success row outside it, one malformed row;
the status hypothesis is discharged and the analyzer's total is the
sum of the two in-window counts. -/
theorem c8_analyze_totals_and_rate_witness :
    (analyze_sending_statistics 864000 7 c8_rows).total_attempts =
      c8_rows.countP (fun r => in_window 864000 7 r && r.status == "Success") +
        c8_rows.countP (fun r => in_window 864000 7 r && r.status == "Failed") :=
  (c8_analyze_totals_and_rate 864000 7 c8_rows (by decide)).1
